import Mathlib

/-!
Verification of the grunt-tizen Bridge orchestration core.

This file gives a shallow embedding of the promise chains in
`lib/bridge.js`, `lib/tasks-maker.js`, `lib/sdb-wrapper.js` and
`lib/tizen-config.js`.  Each asynchronous operation is modelled as a
pure function from the outcomes of its primitive remote calls to a
final result (`Res`) together with a trace of the primitive
invocations it performed (`List Ev`).  Promise rejection is modelled
by `Res.error`; a promise that resolves `undefined` where a value is
otherwise possible is modelled by `Option` with `none`.
-/

/-- Error value carried by a rejected promise (JS `Error`: only the
message is observable in this code base). -/
structure Err where
  message : String
deriving DecidableEq, Repr

/-- Outcome of a settled promise: fulfilled with a value or rejected
with an error. -/
inductive Res (α : Type) where
  | ok (val : α)
  | error (e : Err)
deriving DecidableEq, Repr

/-- True when the promise outcome is a rejection. -/
def Res.isErr {α : Type} : Res α → Bool
  | .ok _ => false
  | .error _ => true

/-- Character-list prefix test, used to implement substring search. -/
def prefixOfCh : List Char → List Char → Bool
  | [], _ => true
  | _ :: _, [] => false
  | a :: as, b :: bs => a == b && prefixOfCh as bs

/-- Character-list substring (infix) test. -/
def infixOfCh (pat : List Char) : List Char → Bool
  | [] => prefixOfCh pat []
  | c :: cs => prefixOfCh pat (c :: cs) || infixOfCh pat cs

/-- JS regex/substring test `s.match(pat)` for a plain-text pattern:
true when `pat` occurs as a contiguous substring of `s`. -/
def strContains (s pat : String) : Bool :=
  infixOfCh pat.data s.data

/-- Trace events: the externally observable primitive invocations made
by the Bridge and the task orchestrator. -/
inductive Ev where
  | shell (cmd : String)
  | pushOne (localFile : String)
  | rootOn
  | rootOff
  | runCmd (action : String)
  | launchApp (subcommand : String)
  | portForward (localPort remotePort : Nat)
  | runBrowser (browserCmd : String) (localPort : Nat)
  | readConfig (path : String)
deriving DecidableEq, Repr

/-- Raw outcome of the host-side `exec` of an sdb command line
(`lib/sdb-wrapper.js`): an optional execution error message, the
captured stdout and the captured stderr. -/
structure ExecOutcome where
  err : Option String
  stdout : String
  stderr : String

/-- SdbWrapper.prototype.execute (lib/sdb-wrapper.js lines 44-62):
reject with the exec error if any; else reject with `Error(stdout)`
when stdout matches `command not found` or `No such file or
directory`; else reject with `Error(stderr)` when stderr matches
`failed`; else resolve stdout. -/
def execute (o : ExecOutcome) : Res String :=
  match o.err with
  | some m => .error ⟨m⟩
  | none =>
    if strContains o.stdout "command not found" then .error ⟨o.stdout⟩
    else if strContains o.stdout "No such file or directory" then .error ⟨o.stdout⟩
    else if strContains o.stderr "failed" then .error ⟨o.stderr⟩
    else .ok o.stdout

/-- Environment for remote shell calls: assigns to each remote command
string the raw exec outcome of `sdb shell "<cmd>"` for this run.
`SdbWrapper.prototype.shell` wraps the command and delegates to
`execute`; we index the environment by the remote command itself. -/
def shellRun (env : String → ExecOutcome) (remoteCmd : String) : Res String :=
  execute (env remoteCmd)

/-- Remote command issued by Bridge.prototype.fileExists. -/
def statCmd (remotePath : String) : String :=
  "stat " ++ remotePath

/-- Bridge.prototype.fileExists (lib/bridge.js lines 72-88): run
`stat <path>` via the shell; on success resolve `true`; on failure
resolve `false` when the error message is exactly (`===`)
`No such file or directory`, otherwise rethrow the error. -/
def fileExists (env : String → ExecOutcome) (remotePath : String) :
    Res Bool × List Ev :=
  let r := shellRun env (statCmd remotePath)
  (match r with
   | .ok _ => .ok true
   | .error e =>
     if e.message = "No such file or directory" then .ok false
     else .error e,
   [Ev.shell (statCmd remotePath)])

example : execute ⟨none, "hello", ""⟩ = .ok "hello" := by decide

example :
    (fileExists (fun _ => ⟨none, "ok", ""⟩) "/tmp/x").1 = .ok true := by
  decide

example :
    (fileExists (fun _ => ⟨some "No such file or directory", "", ""⟩) "/tmp/x").1
      = .ok false := by
  decide

example :
    (fileExists (fun _ => ⟨none, "stat: cannot stat: No such file or directory", ""⟩) "/tmp/x").1
      = .error ⟨"stat: cannot stat: No such file or directory"⟩ := by
  decide

/-- File specification accepted by Bridge.prototype.listRemoteFiles:
a single string, an array of strings, or a pattern object with an
optional filter. -/
inductive FileSpec where
  | str (s : String)
  | strs (l : List String)
  | pat (pattern : String) (filter : Option String)
deriving DecidableEq, Repr

/-- JS `stdout.replace(/\r/g, '')`: remove every carriage return. -/
def stripCarriageReturns (s : String) : String :=
  ⟨s.data.filter (fun c => c ≠ '\r')⟩

/-- JS `stdout.replace(/^\n$/g, '')` without the `m` flag: the regex
only matches when the whole string is a single newline, which is then
collapsed to the empty string. -/
def collapseBlankOnly (s : String) : String :=
  if s = "\n" then "" else s

/-- JS `String.prototype.split` on a single separator character. -/
def splitOnChar (c : Char) : List Char → List (List Char)
  | [] => [[]]
  | x :: xs =>
    match splitOnChar c xs with
    | [] => [[]]
    | h :: t => if x = c then [] :: h :: t else (x :: h) :: t

/-- JS `stdout.split('\n')`. -/
def splitNewlines (s : String) : List String :=
  (splitOnChar '\n' s.data).map (fun l => ⟨l⟩)

/-- Remote command issued by Bridge.prototype.listRemoteFiles for a
pattern object. -/
def lsCmd (pattern : String) : String :=
  "ls -1 -c " ++ pattern

/-- Bridge.prototype.listRemoteFiles (lib/bridge.js lines 128-162):
a plain string resolves to a singleton list and an array resolves
verbatim, in both cases with no remote call; a pattern object runs
`ls -1 -c <pattern>` remotely, strips carriage returns, collapses a
blank-only output, splits on newlines, and keeps only the first entry
when the filter is `latest`; remote failure is rethrown. -/
def listRemoteFiles (env : String → ExecOutcome) :
    FileSpec → Res (List String) × List Ev
  | .str s => (.ok [s], [])
  | .strs l => (.ok l, [])
  | .pat pattern filter =>
    (match shellRun env (lsCmd pattern) with
     | .ok stdout =>
       let fileArray := splitNewlines (collapseBlankOnly (stripCarriageReturns stdout))
       if filter = some "latest" then .ok [fileArray.headD ""]
       else .ok fileArray
     | .error e => .error e,
     [Ev.shell (lsCmd pattern)])

example :
    (listRemoteFiles (fun _ => ⟨none, "b.wgt\r\na.wgt", ""⟩) (.pat "*.wgt" none)).1
      = .ok ["b.wgt", "a.wgt"] := by
  decide

example :
    (listRemoteFiles (fun _ => ⟨none, "b.wgt\r\na.wgt", ""⟩)
        (.pat "*.wgt" (some "latest"))).1
      = .ok ["b.wgt"] := by
  decide

/-- Node `path.basename` for POSIX paths, as used by
Bridge.prototype.getDestination: drop trailing separators, then take
the final path component; an all-separator path yields `/` and the
empty path yields the empty string. -/
def basename (p : String) : String :=
  let rev := p.data.reverse
  let rest := rev.dropWhile (fun c => c == '/')
  if rest.isEmpty then (if p.data.isEmpty then "" else "/")
  else ⟨(rest.takeWhile (fun c => c != '/')).reverse⟩

example : basename "/home/dev/app.wgt" = "app.wgt" := by decide

example : basename "/home/dev/" = "dev" := by decide

/-- JS `remoteDir.replace(/\/$/, '')`: the regex is neither global nor
multiline, so it strips exactly one trailing forward slash when one is
present. -/
def stripOneTrailingSlash (s : String) : String :=
  if s.data.getLast? = some '/' then ⟨s.data.dropLast⟩ else s

/-- Bridge.prototype.getDestination (lib/bridge.js lines 174-181):
strip one trailing slash from remoteDir and append `/` plus the
basename of the local file. -/
def getDestination (localFile remoteDir : String) : String :=
  stripOneTrailingSlash remoteDir ++ "/" ++ basename localFile

example : getDestination "pkg/app.wgt" "/home/dev/" = "/home/dev/app.wgt" := by
  decide

example : getDestination "pkg/app.wgt" "/home/dev//" = "/home/dev//app.wgt" := by
  decide

/-- Bridge.prototype.push (lib/bridge.js lines 263-293), after the
file lister has resolved the local file specification.  `async.each`
dispatches `pushOne` for every listed file before any completion
callback can run, so every file is attempted even when another file's
push fails; the aggregate rejects with the generic error when any
per-file push failed, and resolves otherwise.  The outcome of each
`pushOne` is abstracted as `outcome`. -/
def push (listerResult : Res (List String)) (outcome : String → Res Unit) :
    Res Unit × List Ev :=
  match listerResult with
  | .error e => (.error e, [])
  | .ok filesToPush =>
    (if filesToPush.any (fun f => (outcome f).isErr) then
       .error ⟨"error while pushing files"⟩
     else .ok (),
     filesToPush.map Ev.pushOne)

/-- JS `stdout.match('not installed|failed')` used by
Bridge.prototype.uninstall: the string argument is compiled to the
regex `not installed|failed`, i.e. a substring test for either
alternative. -/
def uninstallFailPat (stdout : String) : Bool :=
  strContains stdout "not installed" || strContains stdout "failed"

/-- JS `stdout.match('running|does not exist|failed')` used by
Bridge.prototype.launch. -/
def launchFailPat (stdout : String) : Bool :=
  strContains stdout "running" || strContains stdout "does not exist" ||
    strContains stdout "failed"

/-- Bridge.prototype.uninstall (lib/bridge.js lines 439-461), given
the outcome of `runTizenAppScript('uninstall', [packageName])`.  On a
fulfilled result whose stdout matches the failure pattern the error
handler runs (throwing when stopOnFailure, merely warning otherwise);
`.fail(errorHandler)` applies the same policy to a rejected result. -/
def uninstall (packageName : String) (scriptOut : Res String)
    (stopOnFailure : Bool) : Res Unit :=
  match scriptOut with
  | .ok stdout =>
    if uninstallFailPat stdout then
      if stopOnFailure then
        .error ⟨"package " ++ packageName ++ " could not be uninstalled"⟩
      else .ok ()
    else .ok ()
  | .error e => if stopOnFailure then .error e else .ok ()

/-- Bridge.prototype.launch (lib/bridge.js lines 475-505), given the
outcome of `runTizenAppScript(subcommand, [appUri])`.  A fulfilled
result whose stdout matches the failure pattern, or a rejected result,
goes to the error handler: rethrow when stopOnFailure, otherwise warn
and resolve `undefined` (modelled `none`).  On genuine success the raw
stdout is resolved (`some stdout`), for the task layer to parse. -/
def launch (scriptOut : Res String) (stopOnFailure : Bool) :
    Res (Option String) :=
  match scriptOut with
  | .ok stdout =>
    if launchFailPat stdout then
      if stopOnFailure then .error ⟨stdout⟩ else .ok none
    else .ok (some stdout)
  | .error e => if stopOnFailure then .error e else .ok none

/-- Remote-script result that counts as a failing uninstall: the
remote invocation was rejected, or it fulfilled with stdout matching
`not installed|failed`. -/
def failingUninstallOut (scriptOut : Res String) : Bool :=
  match scriptOut with
  | .ok stdout => uninstallFailPat stdout
  | .error _ => true

/-- Remote-script result that counts as a failing launch: the remote
invocation was rejected, or it fulfilled with stdout matching
`running|does not exist|failed`. -/
def failingLaunchOut (scriptOut : Res String) : Bool :=
  match scriptOut with
  | .ok stdout => launchFailPat stdout
  | .error _ => true

/-- Value of a decimal digit run, as consumed by
`parseInt(digits, 10)`. -/
def digitsVal (ds : List Char) : Nat :=
  ds.foldl (fun acc c => acc * 10 + (c.toNat - 48)) 0

/-- Port capture at the head of a character list: succeeds when the
list starts with `PORT ` followed by at least one digit, returning the
value of the maximal digit run (the `(\d+)` capture). -/
def portAt : List Char → Option Nat
  | 'P' :: 'O' :: 'R' :: 'T' :: ' ' :: rest =>
    let ds := rest.takeWhile Char.isDigit
    if ds.isEmpty then none else some (digitsVal ds)
  | _ => none

/-- JS `stdout.match(/PORT (\d+)/)` followed by
`parseInt(match[1], 10)`: the first occurrence of `PORT ` followed by
digits yields the captured port number. -/
def findPort : List Char → Option Nat
  | [] => none
  | c :: rest =>
    match portAt (c :: rest) with
    | some n => some n
    | none => findPort rest

example : findPort "launched\nPORT 1234\n".data = some 1234 := by decide

example : findPort "launched, no port".data = none := by decide

/-- Options of the `launch` task function (lib/tasks-maker.js):
`data.localPort`, `data.browserCmd` and `data.stopOnFailure` after the
defaulting at the top of the function (localPort defaults to 8888,
browserCmd to null, stopOnFailure to false). -/
structure LaunchData where
  localPort : Option Nat
  browserCmd : Option String
  stopOnFailure : Bool
deriving DecidableEq, Repr

/-- Task function `launch` (lib/tasks-maker.js lines 751-775), given
the outcome of the remote launch script, of `Bridge.portForward` and
of `Bridge.runBrowser`.  For the `debug` subcommand the fulfilled
launch value is `result.match(/PORT (\d+)/)`-parsed: a fulfilled
`undefined` (swallowed failure) makes `result.match` throw a
TypeError; an absent port token throws `no remote port available for
debugging`; otherwise `portForward(localPort, remotePort)` runs, and
only when it succeeds and a browser command was supplied does
`runBrowser` run. -/
def launchTask (scriptOut pfOut bwOut : Res String) (d : LaunchData)
    (subcommand : String) : Res Unit × List Ev :=
  let localPort := d.localPort.getD 8888
  match launch scriptOut d.stopOnFailure with
  | .error e => (.error e, [Ev.launchApp subcommand])
  | .ok result =>
    if subcommand = "debug" then
      match result with
      | none =>
        -- result.match(...) on undefined throws a TypeError
        (.error ⟨"TypeError: Cannot read property match of undefined"⟩,
         [Ev.launchApp subcommand])
      | some stdout =>
        match findPort stdout.data with
        | none =>
          (.error ⟨"no remote port available for debugging"⟩,
           [Ev.launchApp subcommand])
        | some remotePort =>
          match pfOut with
          | .error e =>
            (.error e,
             [Ev.launchApp subcommand, Ev.portForward localPort remotePort])
          | .ok _ =>
            match d.browserCmd with
            | none =>
              (.ok (),
               [Ev.launchApp subcommand, Ev.portForward localPort remotePort])
            | some browserCmd =>
              ((match bwOut with
                | .ok _ => .ok ()
                | .error e => .error e),
               [Ev.launchApp subcommand, Ev.portForward localPort remotePort,
                Ev.runBrowser browserCmd localPort])
    else (.ok (), [Ev.launchApp subcommand])

/-- Invocation data of the `tizen` task (lib/tasks-maker.js): the
requested action and the caller's `asRoot` flag after the
`data.asRoot || false` defaulting. -/
structure TaskData where
  action : Option String
  asRoot : Bool
deriving DecidableEq, Repr

/-- Actions recognised by the tizenTask dispatch chain. -/
def knownActions : List String :=
  ["push", "install", "uninstall", "script", "start", "stop", "debug"]

/-- Resolved asRoot flag: the `install` branch of tizenTask forces
`asRoot = true` regardless of the caller's setting. -/
def resolvedAsRoot (d : TaskData) (action : String) : Bool :=
  if action = "install" then true else d.asRoot

/-- Root bracket of tizenTask (lib/tasks-maker.js lines 832-849):
`bridge.root(true).then(cmd).finally(root(false))` under Q promise
semantics.  The `.then` callback (the inner command) runs only when
root(true) fulfilled, but Q's `finally` runs its callback on both
fulfilment and rejection, so root(false) is invoked even when
root(true) was rejected; a rejection of the finally callback replaces
the outcome, otherwise the outcome of the earlier stages passes
through. -/
def rootBracket (rootOn rootOff cmdOutcome : Res Unit) (action : String) :
    Res Unit × List Ev :=
  match rootOn with
  | .error e =>
    (match rootOff with
     | .error e2 => .error e2
     | .ok _ => .error e,
     [Ev.rootOn, Ev.rootOff])
  | .ok _ =>
    (match rootOff with
     | .error e2 => .error e2
     | .ok _ => cmdOutcome,
     [Ev.rootOn, Ev.runCmd action, Ev.rootOff])

/-- tizenTask (lib/tasks-maker.js lines 791-850), with the selected
action function's outcome abstracted as `cmdOutcome` and the outcomes
of `bridge.root(true)` / `bridge.root(false)` abstracted as `rootOn` /
`rootOff`: reject when the action is missing or unknown; run the
command under the root bracket when the resolved asRoot flag is true,
and directly otherwise. -/
def tizenTask (rootOn rootOff cmdOutcome : Res Unit) (d : TaskData) :
    Res Unit × List Ev :=
  match d.action with
  | none => (.error ⟨"tizen task requires action argument"⟩, [])
  | some action =>
    if action ∈ knownActions then
      if resolvedAsRoot d action then rootBracket rootOn rootOff cmdOutcome action
      else (cmdOutcome, [Ev.runCmd action])
    else
      (.error ⟨"action " ++ action ++ " was not recognised as valid"⟩, [])

/-- Application metadata parsed from config.xml
(lib/tizen-config.js). -/
structure AppMeta where
  id : String
  uri : String
  packageName : String
  content : String
deriving DecidableEq, Repr

/-- Mutable state of a TizenConfig object: the configFile path and the
cached parse result (`configParsed`, initially null). -/
structure ConfigState where
  configFile : String
  configParsed : Option AppMeta
deriving DecidableEq, Repr

/-- TizenConfig.prototype.getMeta (lib/tizen-config.js lines 53-70):
return the cached metadata when present; otherwise read and parse the
file at `configFile` (the filesystem is modelled as a map from path to
parse result, `none` meaning the read or parse throws), cache a
successful parse, and return it.  The trace records each file read. -/
def getMeta (fileSys : String → Option AppMeta) (st : ConfigState) :
    Res AppMeta × ConfigState × List Ev :=
  match st.configParsed with
  | some meta => (.ok meta, st, [])
  | none =>
    match fileSys st.configFile with
    | none =>
      (.error ⟨"could not read or parse " ++ st.configFile⟩, st,
       [Ev.readConfig st.configFile])
    | some meta =>
      (.ok meta, { st with configParsed := some meta },
       [Ev.readConfig st.configFile])

/-- True when the trace contains a portForward invocation. -/
def hasPortForwardEv (tr : List Ev) : Bool :=
  tr.any fun e =>
    match e with
    | .portForward _ _ => true
    | _ => false

/-- True when the trace contains a runBrowser invocation. -/
def hasBrowserEv (tr : List Ev) : Bool :=
  tr.any fun e =>
    match e with
    | .runBrowser _ _ => true
    | _ => false

/-- A string of k forward slashes. -/
def slashes (k : Nat) : String :=
  ⟨List.replicate k '/'⟩

/-- C3: Fan-out failure independence: for every push of a list of N
files in which at least one pushOne fails, all N pushOne calls are
still attempted (no fail-fast) and the aggregate push fails with the
generic error "error while pushing files"; if no pushOne fails, the
aggregate push succeeds.  In both cases the trace contains a pushOne
invocation for every listed file. -/
theorem c3_push_fanout :
    ∀ (files : List String) (outcome : String → Res Unit),
      ((∃ f ∈ files, (outcome f).isErr = true) →
        push (.ok files) outcome
          = (.error ⟨"error while pushing files"⟩, files.map Ev.pushOne)) ∧
      ((∀ f ∈ files, (outcome f).isErr = false) →
        push (.ok files) outcome = (.ok (), files.map Ev.pushOne)) := by
  intro files outcome
  constructor
  · intro h
    have hany : files.any (fun f => (outcome f).isErr) = true := by
      rw [List.any_eq_true]
      obtain ⟨f, hf, he⟩ := h
      exact ⟨f, hf, he⟩
    simp [push, hany]
  · intro h
    have hany : files.any (fun f => (outcome f).isErr) = false := by
      rw [List.any_eq_false]
      intro f hf
      simp [h f hf]
    simp [push, hany]

theorem c3_push_fanout_witness :
    (∃ f ∈ ["a.wgt", "b.wgt", "c.wgt"],
      (((fun f => if f = "b.wgt" then (Res.error ⟨"could not push file to device"⟩ : Res Unit)
                  else .ok ()) : String → Res Unit) f).isErr = true) ∧
    push (.ok ["a.wgt", "b.wgt", "c.wgt"])
        (fun f => if f = "b.wgt" then .error ⟨"could not push file to device"⟩ else .ok ())
      = (.error ⟨"error while pushing files"⟩,
         [Ev.pushOne "a.wgt", Ev.pushOne "b.wgt", Ev.pushOne "c.wgt"]) :=
  ⟨by decide,
   (c3_push_fanout ["a.wgt", "b.wgt", "c.wgt"]
      (fun f => if f = "b.wgt" then .error ⟨"could not push file to device"⟩ else .ok ())).1
     (by decide)⟩

/-- C5: stopOnFailure semantics: for every uninstall or launch call
whose remote invocation fails or whose stdout matches the failure
pattern (`not installed|failed` for uninstall, `running|does not
exist|failed` for launch), the operation propagates an error when
stopOnFailure is true and resolves successfully when stopOnFailure is
false. -/
theorem c5_stopOnFailure :
    ∀ (scriptOut : Res String) (packageName : String),
      (failingUninstallOut scriptOut = true →
        (uninstall packageName scriptOut true).isErr = true ∧
        uninstall packageName scriptOut false = .ok ()) ∧
      (failingLaunchOut scriptOut = true →
        (launch scriptOut true).isErr = true ∧
        launch scriptOut false = .ok none) := by
  intro scriptOut packageName
  rcases scriptOut with stdout | e
  · constructor
    · intro h
      simp only [failingUninstallOut] at h
      simp [uninstall, h, Res.isErr]
    · intro h
      simp only [failingLaunchOut] at h
      simp [launch, h, Res.isErr]
  · constructor
    · intro _
      simp [uninstall, Res.isErr]
    · intro _
      simp [launch, Res.isErr]

theorem c5_stopOnFailure_witness :
    (failingUninstallOut (.ok "uninstall failed") = true ∧
      (uninstall "pkg" (.ok "uninstall failed") true).isErr = true ∧
      uninstall "pkg" (.ok "uninstall failed") false = .ok ()) ∧
    (failingLaunchOut (.error ⟨"closed"⟩) = true ∧
      (launch (.error ⟨"closed"⟩) true).isErr = true ∧
      launch (.error ⟨"closed"⟩) false = .ok none) :=
  ⟨⟨by decide, (c5_stopOnFailure (.ok "uninstall failed") "pkg").1 (by decide)⟩,
   ⟨by decide, (c5_stopOnFailure (.error ⟨"closed"⟩) "pkg").2 (by decide)⟩⟩

/-- C6: getDestination is a pure total function that strips exactly
one trailing slash from remoteDir — for a remoteDir with no trailing
slash nothing is stripped, and appending k+1 trailing slashes leaves k
of them — and returns the stripped remoteDir + `/` + basename of the
local file. -/
theorem c6_getDestination :
    ∀ (localFile remoteDir : String) (k : Nat),
      remoteDir.data.getLast? ≠ some '/' →
      getDestination localFile remoteDir
        = remoteDir ++ "/" ++ basename localFile ∧
      getDestination localFile (remoteDir ++ slashes (k + 1))
        = remoteDir ++ slashes k ++ "/" ++ basename localFile := by
  intro localFile remoteDir k h
  constructor
  · unfold getDestination stripOneTrailingSlash
    rw [if_neg h]
  · have hdata : (remoteDir ++ slashes (k + 1)).data
        = (remoteDir.data ++ List.replicate k '/') ++ ['/'] := by
      show remoteDir.data ++ List.replicate (k + 1) '/' = _
      rw [List.replicate_succ', List.append_assoc]
    unfold getDestination stripOneTrailingSlash
    rw [if_pos (by rw [hdata]; exact List.getLast?_concat _)]
    have hdrop : (remoteDir ++ slashes (k + 1)).data.dropLast
        = remoteDir.data ++ List.replicate k '/' := by
      rw [hdata]
      exact List.dropLast_concat
    rw [hdrop]
    rfl

theorem c6_getDestination_witness :
    ("/home/dev" : String).data.getLast? ≠ some '/' ∧
    (getDestination "wgt/app.wgt" "/home/dev"
        = "/home/dev" ++ "/" ++ basename "wgt/app.wgt" ∧
      getDestination "wgt/app.wgt" ("/home/dev" ++ slashes 2)
        = "/home/dev" ++ slashes 1 ++ "/" ++ basename "wgt/app.wgt") :=
  ⟨by decide, c6_getDestination "wgt/app.wgt" "/home/dev" 1 (by decide)⟩

/-- C7: listRemoteFiles resolves a single string to the one-element
list containing it and a list of strings to that list verbatim, in
both cases without any remote call; for a pattern object it runs
`ls -1 -c <pattern>` remotely, strips carriage returns, collapses a
blank-only output, splits the result into an ordered list, and when
the filter is `latest` returns only the first (newest) entry. -/
theorem c7_listRemoteFiles :
    ∀ (env : String → ExecOutcome) (s : String) (l : List String)
      (pattern : String) (filter : Option String) (stdout : String),
      listRemoteFiles env (.str s) = (.ok [s], []) ∧
      listRemoteFiles env (.strs l) = (.ok l, []) ∧
      (listRemoteFiles env (.pat pattern filter)).2 = [Ev.shell (lsCmd pattern)] ∧
      (shellRun env (lsCmd pattern) = .ok stdout →
        (filter = some "latest" →
          (listRemoteFiles env (.pat pattern filter)).1
            = .ok [(splitNewlines (collapseBlankOnly (stripCarriageReturns stdout))).headD ""]) ∧
        (filter ≠ some "latest" →
          (listRemoteFiles env (.pat pattern filter)).1
            = .ok (splitNewlines (collapseBlankOnly (stripCarriageReturns stdout))))) := by
  intro env s l pattern filter stdout
  refine ⟨rfl, rfl, ?_, ?_⟩
  · simp only [listRemoteFiles]
  · intro hok
    constructor
    · intro hf
      simp [listRemoteFiles, hok, hf]
    · intro hf
      simp [listRemoteFiles, hok, hf]

theorem c7_listRemoteFiles_witness :
    (shellRun (fun _ => ⟨none, "new.wgt\r\nold.wgt", ""⟩) (lsCmd "*.wgt")
        = .ok "new.wgt\r\nold.wgt") ∧
    (listRemoteFiles (fun _ => ⟨none, "new.wgt\r\nold.wgt", ""⟩)
        (.pat "*.wgt" (some "latest"))).1
      = .ok [(splitNewlines (collapseBlankOnly
          (stripCarriageReturns "new.wgt\r\nold.wgt"))).headD ""] ∧
    (listRemoteFiles (fun _ => ⟨none, "new.wgt\r\nold.wgt", ""⟩)
        (.pat "*.wgt" none)).1
      = .ok (splitNewlines (collapseBlankOnly
          (stripCarriageReturns "new.wgt\r\nold.wgt"))) :=
  ⟨by decide,
   (((c7_listRemoteFiles (fun _ => ⟨none, "new.wgt\r\nold.wgt", ""⟩) ""
        [] "*.wgt" (some "latest") "new.wgt\r\nold.wgt").2.2.2
      (by decide)).1 rfl),
   (((c7_listRemoteFiles (fun _ => ⟨none, "new.wgt\r\nold.wgt", ""⟩) ""
        [] "*.wgt" none "new.wgt\r\nold.wgt").2.2.2
      (by decide)).2 (by decide))⟩

/-- C8: for every ActionRequest with action = install, tizenTask
executes the command under the root bracket (root(true) first,
root(false) afterwards) regardless of the caller's asRoot setting,
including when the caller sets asRoot to false. -/
theorem c8_install_forces_root :
    ∀ (rootOn rootOff cmdOutcome : Res Unit) (asRoot : Bool),
      tizenTask rootOn rootOff cmdOutcome ⟨some "install", asRoot⟩
        = rootBracket rootOn rootOff cmdOutcome "install" ∧
      (tizenTask rootOn rootOff cmdOutcome ⟨some "install", false⟩).2.head?
        = some Ev.rootOn ∧
      Ev.rootOff ∈ (tizenTask rootOn rootOff cmdOutcome ⟨some "install", false⟩).2 := by
  intro rootOn rootOff cmdOutcome asRoot
  refine ⟨?_, ?_, ?_⟩
  · simp [tizenTask, resolvedAsRoot, knownActions]
  · rcases rootOn with v | e <;>
      simp [tizenTask, resolvedAsRoot, knownActions, rootBracket]
  · rcases rootOn with v | e <;>
      simp [tizenTask, resolvedAsRoot, knownActions, rootBracket]

/-- The root-bracket property exactly as claim C1 states it, including
the conjunct that root(false) is never invoked when root(true)
fails. -/
def claimC1 : Prop :=
  ∀ (rootOn rootOff cmdOutcome : Res Unit) (d : TaskData) (action : String),
    d.action = some action → action ∈ knownActions →
    resolvedAsRoot d action = true →
    (tizenTask rootOn rootOff cmdOutcome d).2.head? = some Ev.rootOn ∧
    (rootOn.isErr = true →
      Ev.runCmd action ∉ (tizenTask rootOn rootOff cmdOutcome d).2 ∧
      Ev.rootOff ∉ (tizenTask rootOn rootOff cmdOutcome d).2) ∧
    (rootOn.isErr = false →
      (tizenTask rootOn rootOff cmdOutcome d).2.count (Ev.runCmd action) = 1 ∧
      (tizenTask rootOn rootOff cmdOutcome d).2.count Ev.rootOff = 1) ∧
    ((rootOn.isErr || cmdOutcome.isErr || rootOff.isErr) = true →
      (tizenTask rootOn rootOff cmdOutcome d).1.isErr = true)

/-- C1 counterexample: with root(true) rejected (and the other
outcomes fulfilled) for an asRoot push request, the finally callback
still runs, so the trace does contain the root(false) invocation that
the claim says never happens. -/
theorem c1_root_bracket_cex : ¬ claimC1 := by
  intro h
  have hc := h (.error ⟨"root failure"⟩) (.ok ()) (.ok ())
    ⟨some "push", true⟩ "push" rfl (by decide) (by decide)
  have hoff := (hc.2.1 (by decide)).2
  exact hoff (by decide)

/-- C1 (amended): for every ActionRequest whose resolved asRoot flag
is true, tizenTask calls Bridge.root(true) first; the inner command
runs only if root(true) succeeded; if root(true) fails the inner
command is never invoked but root(false) is still invoked exactly once
(Q's finally callback runs on rejection too); if root(true) succeeds
the inner command and root(false) are each invoked exactly once
regardless of the inner command's outcome; and the final result is an
error if root(true), the inner command, or root(false) failed. -/
theorem c1_root_bracket :
    ∀ (rootOn rootOff cmdOutcome : Res Unit) (d : TaskData) (action : String),
      d.action = some action → action ∈ knownActions →
      resolvedAsRoot d action = true →
      (tizenTask rootOn rootOff cmdOutcome d).2.head? = some Ev.rootOn ∧
      (rootOn.isErr = true →
        Ev.runCmd action ∉ (tizenTask rootOn rootOff cmdOutcome d).2 ∧
        (tizenTask rootOn rootOff cmdOutcome d).2.count Ev.rootOff = 1) ∧
      (rootOn.isErr = false →
        (tizenTask rootOn rootOff cmdOutcome d).2.count (Ev.runCmd action) = 1 ∧
        (tizenTask rootOn rootOff cmdOutcome d).2.count Ev.rootOff = 1) ∧
      ((rootOn.isErr || cmdOutcome.isErr || rootOff.isErr) = true →
        (tizenTask rootOn rootOff cmdOutcome d).1.isErr = true) := by
  intro rootOn rootOff cmdOutcome d action hAct hKnown hRoot
  have hT : tizenTask rootOn rootOff cmdOutcome d
      = rootBracket rootOn rootOff cmdOutcome action := by
    simp [tizenTask, hAct, hKnown, hRoot]
  rw [hT]
  rcases rootOn with v1 | e1 <;> rcases rootOff with v2 | e2 <;>
    rcases cmdOutcome with v3 | e3 <;>
    simp [rootBracket, Res.isErr, List.count_cons, List.count_nil]

theorem c1_root_bracket_witness :
    ((⟨some "start", true⟩ : TaskData).action = some "start" ∧
      "start" ∈ knownActions ∧
      resolvedAsRoot ⟨some "start", true⟩ "start" = true) ∧
    ((tizenTask (.error ⟨"root failure"⟩) (.ok ()) (.ok ())
        ⟨some "start", true⟩).2.head? = some Ev.rootOn ∧
      ((Res.error ⟨"root failure"⟩ : Res Unit).isErr = true →
        Ev.runCmd "start"
            ∉ (tizenTask (.error ⟨"root failure"⟩) (.ok ()) (.ok ())
                ⟨some "start", true⟩).2 ∧
        (tizenTask (.error ⟨"root failure"⟩) (.ok ()) (.ok ())
            ⟨some "start", true⟩).2.count Ev.rootOff = 1) ∧
      ((Res.error ⟨"root failure"⟩ : Res Unit).isErr = false →
        (tizenTask (.error ⟨"root failure"⟩) (.ok ()) (.ok ())
            ⟨some "start", true⟩).2.count (Ev.runCmd "start") = 1 ∧
        (tizenTask (.error ⟨"root failure"⟩) (.ok ()) (.ok ())
            ⟨some "start", true⟩).2.count Ev.rootOff = 1) ∧
      (((Res.error ⟨"root failure"⟩ : Res Unit).isErr
          || (Res.ok () : Res Unit).isErr || (Res.ok () : Res Unit).isErr) = true →
        (tizenTask (.error ⟨"root failure"⟩) (.ok ()) (.ok ())
            ⟨some "start", true⟩).1.isErr = true)) :=
  ⟨⟨rfl, by decide, rfl⟩,
   c1_root_bracket (.error ⟨"root failure"⟩) (.ok ()) (.ok ())
     ⟨some "start", true⟩ "start" rfl (by decide) rfl⟩

/-- The fileExists contract exactly as claim C2 states it: any failure
whose message merely matches (contains) "No such file or directory"
resolves false. -/
def claimC2 : Prop :=
  ∀ (env : String → ExecOutcome) (remotePath : String),
    (∀ s, shellRun env (statCmd remotePath) = .ok s →
      (fileExists env remotePath).1 = .ok true) ∧
    (∀ e, shellRun env (statCmd remotePath) = .error e →
      strContains e.message "No such file or directory" = true →
      (fileExists env remotePath).1 = .ok false) ∧
    (∀ e, shellRun env (statCmd remotePath) = .error e →
      strContains e.message "No such file or directory" = false →
      (fileExists env remotePath).1 = .error e)

/-- C2 counterexample: a failing stat whose rejection message is
`stat: /x: No such file or directory` matches the pattern, yet
fileExists propagates the error instead of resolving false, because
the source compares the message with `===` against the exact string
`No such file or directory`. -/
theorem c2_fileExists_cex : ¬ claimC2 := by
  intro h
  have hc := (h (fun _ => ⟨none, "stat: /x: No such file or directory", ""⟩) "/x").2.1
    ⟨"stat: /x: No such file or directory"⟩ (by decide) (by decide)
  exact absurd hc (by decide)

/-- C2 (amended): fileExists resolves true when the remote stat
succeeds; when the remote command fails it resolves false exactly when
the failure message is the exact string `No such file or directory`
(strict equality, not pattern matching); any other failure — including
one whose message merely contains that text — propagates as an
error. -/
theorem c2_fileExists :
    ∀ (env : String → ExecOutcome) (remotePath : String),
      (∀ s, shellRun env (statCmd remotePath) = .ok s →
        (fileExists env remotePath).1 = .ok true) ∧
      (∀ e, shellRun env (statCmd remotePath) = .error e →
        e.message = "No such file or directory" →
        (fileExists env remotePath).1 = .ok false) ∧
      (∀ e, shellRun env (statCmd remotePath) = .error e →
        e.message ≠ "No such file or directory" →
        (fileExists env remotePath).1 = .error e) := by
  intro env remotePath
  refine ⟨?_, ?_, ?_⟩
  · intro s hs
    simp [fileExists, hs]
  · intro e he hmsg
    simp [fileExists, he, hmsg]
  · intro e he hmsg
    simp [fileExists, he, hmsg]

theorem c2_fileExists_witness :
    (shellRun (fun _ => ⟨none, "ok", ""⟩) (statCmd "/x") = .ok "ok" ∧
      (fileExists (fun _ => ⟨none, "ok", ""⟩) "/x").1 = .ok true) ∧
    (shellRun (fun _ => ⟨some "No such file or directory", "", ""⟩) (statCmd "/x")
        = .error ⟨"No such file or directory"⟩ ∧
      (fileExists (fun _ => ⟨some "No such file or directory", "", ""⟩) "/x").1
        = .ok false) ∧
    (shellRun (fun _ => ⟨some "device not found", "", ""⟩) (statCmd "/x")
        = .error ⟨"device not found"⟩ ∧
      (fileExists (fun _ => ⟨some "device not found", "", ""⟩) "/x").1
        = .error ⟨"device not found"⟩) :=
  ⟨⟨by decide,
    (c2_fileExists (fun _ => ⟨none, "ok", ""⟩) "/x").1 "ok" (by decide)⟩,
   ⟨by decide,
    (c2_fileExists (fun _ => ⟨some "No such file or directory", "", ""⟩) "/x").2.1
      ⟨"No such file or directory"⟩ (by decide) rfl⟩,
   ⟨by decide,
    (c2_fileExists (fun _ => ⟨some "device not found", "", ""⟩) "/x").2.2
      ⟨"device not found"⟩ (by decide) (by decide)⟩⟩

/-- C4: for every debug action whose launch genuinely succeeded with
some stdout, the remote port is extracted via the `PORT (\d+)`
pattern; if the token is absent the chain fails with `no remote port
available for debugging` and portForward is never attempted; if
present, portForward is called with the default local port 8888 (or
the supplied one) and the extracted remote port, and runBrowser is
called exactly when portForward succeeded and a browser command was
supplied. -/
theorem c4_debug_chain :
    ∀ (scriptOut pfOut bwOut : Res String) (d : LaunchData) (stdout : String),
      launch scriptOut d.stopOnFailure = .ok (some stdout) →
      (findPort stdout.data = none →
        launchTask scriptOut pfOut bwOut d "debug"
          = (.error ⟨"no remote port available for debugging"⟩,
             [Ev.launchApp "debug"])) ∧
      (∀ remotePort, findPort stdout.data = some remotePort →
        Ev.portForward (d.localPort.getD 8888) remotePort
            ∈ (launchTask scriptOut pfOut bwOut d "debug").2 ∧
        (hasBrowserEv (launchTask scriptOut pfOut bwOut d "debug").2 = true ↔
          (pfOut.isErr = false ∧ d.browserCmd.isSome = true))) := by
  intro scriptOut pfOut bwOut d stdout hlaunch
  constructor
  · intro hp
    simp [launchTask, hlaunch, hp]
  · intro remotePort hp
    rcases d with ⟨localPort, browserCmd, stopOnFailure⟩
    rcases pfOut with s | e
    · rcases browserCmd with _ | bc <;>
        simp [launchTask, hlaunch, hp, hasBrowserEv, Res.isErr]
    · simp [launchTask, hlaunch, hp, hasBrowserEv, Res.isErr]

theorem c4_debug_chain_witness :
    (launch (.ok "app launched\nPORT 1234\n")
        ((⟨none, some "google-chrome %URL%", false⟩ : LaunchData)).stopOnFailure
      = .ok (some "app launched\nPORT 1234\n")) ∧
    (Ev.portForward 8888 1234
        ∈ (launchTask (.ok "app launched\nPORT 1234\n") (.ok "") (.ok "")
            ⟨none, some "google-chrome %URL%", false⟩ "debug").2 ∧
      (hasBrowserEv (launchTask (.ok "app launched\nPORT 1234\n") (.ok "") (.ok "")
            ⟨none, some "google-chrome %URL%", false⟩ "debug").2 = true ↔
        ((Res.ok "" : Res String).isErr = false ∧
          (some "google-chrome %URL%").isSome = true))) ∧
    (launchTask (.ok "app launched, nothing else") (.ok "") (.ok "")
        ⟨none, some "google-chrome %URL%", false⟩ "debug"
      = (.error ⟨"no remote port available for debugging"⟩,
         [Ev.launchApp "debug"])) :=
  ⟨by decide,
   (c4_debug_chain (.ok "app launched\nPORT 1234\n") (.ok "") (.ok "")
       ⟨none, some "google-chrome %URL%", false⟩ "app launched\nPORT 1234\n"
       (by decide)).2 1234 (by decide),
   (c4_debug_chain (.ok "app launched, nothing else") (.ok "") (.ok "")
       ⟨none, some "google-chrome %URL%", false⟩ "app launched, nothing else"
       (by decide)).1 (by decide)⟩

/-- C9: getMeta returns cached metadata without any file read whenever
the cache is populated; and after a first successful parse, a
subsequent getMeta call returns the same metadata with no file read
even if the configFile path was mutated in between (and even if the
underlying filesystem changed). -/
theorem c9_getMeta_cache :
    ∀ (fileSys fileSys2 : String → Option AppMeta) (st : ConfigState)
      (meta : AppMeta) (newPath : String),
      (st.configParsed = some meta → getMeta fileSys st = (.ok meta, st, [])) ∧
      (st.configParsed = none → fileSys st.configFile = some meta →
        getMeta fileSys st
          = (.ok meta, { st with configParsed := some meta },
             [Ev.readConfig st.configFile]) ∧
        getMeta fileSys2
            { configFile := newPath,
              configParsed := ((getMeta fileSys st).2.1).configParsed }
          = (.ok meta, ⟨newPath, some meta⟩, [])) := by
  intro fileSys fileSys2 st meta newPath
  constructor
  · intro hc
    simp [getMeta, hc]
  · intro hc hf
    constructor
    · simp [getMeta, hc, hf]
    · simp [getMeta, hc, hf]

theorem c9_getMeta_cache_witness :
    ((⟨"config.xml", none⟩ : ConfigState).configParsed = none ∧
      (fun p => if p = "config.xml"
          then some (⟨"appid", "uri", "pkg", "index.html"⟩ : AppMeta)
          else none) "config.xml" = some ⟨"appid", "uri", "pkg", "index.html"⟩) ∧
    (getMeta
        (fun p => if p = "config.xml"
          then some ⟨"appid", "uri", "pkg", "index.html"⟩ else none)
        ⟨"config.xml", none⟩
      = (.ok ⟨"appid", "uri", "pkg", "index.html"⟩,
         ⟨"config.xml", some ⟨"appid", "uri", "pkg", "index.html"⟩⟩,
         [Ev.readConfig "config.xml"]) ∧
      getMeta (fun _ => none)
          { configFile := "other.xml",
            configParsed :=
              ((getMeta
                  (fun p => if p = "config.xml"
                    then some ⟨"appid", "uri", "pkg", "index.html"⟩ else none)
                  ⟨"config.xml", none⟩).2.1).configParsed }
        = (.ok ⟨"appid", "uri", "pkg", "index.html"⟩,
           ⟨"other.xml", some ⟨"appid", "uri", "pkg", "index.html"⟩⟩, [])) :=
  ⟨⟨rfl, by decide⟩,
   (c9_getMeta_cache
      (fun p => if p = "config.xml"
        then some ⟨"appid", "uri", "pkg", "index.html"⟩ else none)
      (fun _ => none) ⟨"config.xml", none⟩ ⟨"appid", "uri", "pkg", "index.html"⟩
      "other.xml").2 rfl (by decide)⟩

/-- C10 (implicit): for every launch with stopOnFailure = false whose
remote invocation fails or whose stdout matches the launch failure
pattern, Bridge.launch resolves with no value (`none`, modelling
undefined) rather than the raw stdout; consequently a debug task in
that situation errors at the port-extraction step (the `match` call on
undefined throws) and never reaches portForward. -/
theorem c10_swallowed_launch_debug :
    ∀ (scriptOut pfOut bwOut : Res String) (d : LaunchData),
      failingLaunchOut scriptOut = true → d.stopOnFailure = false →
      launch scriptOut d.stopOnFailure = .ok none ∧
      (launchTask scriptOut pfOut bwOut d "debug").1.isErr = true ∧
      hasPortForwardEv (launchTask scriptOut pfOut bwOut d "debug").2 = false := by
  intro scriptOut pfOut bwOut d hfail hsof
  have hl : launch scriptOut d.stopOnFailure = .ok none := by
    rcases scriptOut with stdout | e
    · simp only [failingLaunchOut] at hfail
      simp [launch, hsof, hfail]
    · simp [launch, hsof]
  refine ⟨hl, ?_, ?_⟩
  · simp [launchTask, hl, Res.isErr]
  · simp [launchTask, hl, hasPortForwardEv]

theorem c10_swallowed_launch_debug_witness :
    (failingLaunchOut (.ok "App id com.example does not exist") = true ∧
      (⟨none, none, false⟩ : LaunchData).stopOnFailure = false) ∧
    (launch (.ok "App id com.example does not exist")
        ((⟨none, none, false⟩ : LaunchData)).stopOnFailure = .ok none ∧
      (launchTask (.ok "App id com.example does not exist") (.ok "") (.ok "")
          ⟨none, none, false⟩ "debug").1.isErr = true ∧
      hasPortForwardEv
          (launchTask (.ok "App id com.example does not exist") (.ok "") (.ok "")
            ⟨none, none, false⟩ "debug").2 = false) :=
  ⟨⟨by decide, rfl⟩,
   c10_swallowed_launch_debug (.ok "App id com.example does not exist")
     (.ok "") (.ok "") ⟨none, none, false⟩ (by decide) rfl⟩


